import Mathlib

/-!
A shallow embedding of `src/vmm/src/api/dbus/mod.rs` from the
cloud-hypervisor repository: the D-Bus API front end, its per-call dispatch
path, the event-loop driver hosted on the dedicated `dbus-thread`, and the
two-channel graceful-shutdown handshake.

External collaborators (serde_json decoding/encoding, `String::from_utf8_lossy`,
the controller behind `super::vm_action` / `super::vm_create` / `super::vmm_ping`
/ `super::vmm_shutdown` / `super::vm_info`) are modelled as parameters: the
embedding quantifies over them, matching the spec's stance that their
behaviour beyond succeeds-or-fails is out of scope.
-/

namespace DBusApiModel

/-- The `zbus::fdo::Error` values produced in this file: `Failed` (from
`api_error`, which Debug-formats the underlying error) and `IOError` (from
`clone_api_notifier` on `EventFd::try_clone` failure). The carried string is
the already-formatted message. -/
inductive FdoError where
  | Failed (msg : String)
  | IOError (msg : String)
deriving DecidableEq, Repr

/-- `fn api_error(error: impl Debug) -> fdo::Error` wraps the Debug rendering
of an error into `fdo::Error::Failed`. The Debug rendering itself is external
formatting, so the model takes the rendered string. -/
def api_error (msg : String) : FdoError := FdoError.Failed msg

/-- The `VmAction` variants submitted by this file (their definition lives in
`super`, i.e. `vmm/src/api/mod.rs`; the variants and which ones carry a
decoded configuration payload are read off the call sites in this file).
`C` is the type of decoded configuration payloads (`Arc<…Config>` in Rust). -/
inductive VmAction (C : Type) where
  | AddDevice (cfg : C)
  | AddDisk (cfg : C)
  | AddFs (cfg : C)
  | AddNet (cfg : C)
  | AddPmem (cfg : C)
  | AddUserDevice (cfg : C)
  | AddVdpa (cfg : C)
  | AddVsock (cfg : C)
  | Boot
  | Coredump (cfg : C)
  | Counters
  | Delete
  | Pause
  | PowerButton
  | Reboot
  | RemoveDevice (cfg : C)
  | Resize (cfg : C)
  | ResizeZone (cfg : C)
  | Restore (cfg : C)
  | ReceiveMigration (cfg : C)
  | SendMigration (cfg : C)
  | Resume
  | Shutdown
  | Snapshot (cfg : C)
deriving DecidableEq, Repr

/-- A command submitted to the controller over the `Sender<ApiRequest>`
channel, one per `super::…` call site in this file. -/
inductive Command (C : Type) where
  | vmmPing
  | vmmShutdown
  | vmInfo
  | vmCreate (cfg : C)
  | action (a : VmAction C)
deriving DecidableEq, Repr

/-- One observable step of the per-call algorithm: decoding the string
argument (`serde_json::from_str`), duplicating the channel sender
(`clone_api_sender`), duplicating the notifier (`clone_api_notifier`),
submitting the command to the controller inside the offloaded
`blocking::unblock` closure, awaiting that offloaded round-trip, and encoding
the reply into the declared return shape. -/
inductive CallEvent where
  | decodeArg
  | cloneSender
  | cloneNotifier
  | submit
  | awaitDone
  | encodeReply
deriving DecidableEq, Repr

/-- The observable log of one call: the ordered trace of steps it performed
and the list of commands it submitted to the controller. -/
structure CallLog (C : Type) where
  trace : List CallEvent
  submitted : List (Command C)
deriving DecidableEq, Repr

/-- The environment a call runs against: the structured-text decoder
(`serde_json::from_str`, errors carry their Debug rendering), the lossy
byte-to-text conversion (`String::from_utf8_lossy(..).to_string()`), the
controller stand-in (the blocking `super::vm_action` round-trip: an error's
Debug rendering, or an optional response body as bytes), and the outcome of
`EventFd::try_clone` in `clone_api_notifier` (error carries its Debug
rendering). -/
structure CallEnv (C : Type) where
  decode : String → Except String C
  lossy : List Nat → String
  ctrl : Command C → Except String (Option (List Nat))
  notifierClone : Except String Unit

/-- `DBusApi::vm_action`: clone the sender, clone the notifier (`?` on
failure, mapped to `fdo::Error::IOError`), offload
`super::vm_action(notifier, sender, action)` via `blocking::unblock`, await
it, map a controller error through `api_error` (`?`), and map a present body
through `String::from_utf8_lossy` into the `Optional<String>` result. -/
def vm_action (env : CallEnv C) (a : VmAction C) :
    CallLog C × Except FdoError (Option String) :=
  match env.notifierClone with
  | .error e => (⟨[.cloneSender, .cloneNotifier], []⟩, .error (FdoError.IOError e))
  | .ok _ =>
    match env.ctrl (Command.action a) with
    | .error e =>
        (⟨[.cloneSender, .cloneNotifier, .submit, .awaitDone], [Command.action a]⟩,
         .error (api_error e))
    | .ok none =>
        (⟨[.cloneSender, .cloneNotifier, .submit, .awaitDone, .encodeReply],
          [Command.action a]⟩, .ok none)
    | .ok (some b) =>
        (⟨[.cloneSender, .cloneNotifier, .submit, .awaitDone, .encodeReply],
          [Command.action a]⟩, .ok (some (env.lossy b)))

/-- The common body of the config-bearing methods that return
`Optional<String>`: decode the argument first (`?` on failure through
`api_error`), then run `vm_action` on the given variant. -/
def configMethodOpt (mk : C → VmAction C) (env : CallEnv C) (arg : String) :
    CallLog C × Except FdoError (Option String) :=
  match env.decode arg with
  | .error e => (⟨[.decodeArg], []⟩, .error (api_error e))
  | .ok cfg =>
    let r := vm_action env (mk cfg)
    (⟨.decodeArg :: r.1.trace, r.1.submitted⟩, r.2)

/-- The common body of the config-bearing methods that end in
`.map(|_| ())`: same steps as `configMethodOpt`, result discarded. -/
def configMethodUnit (mk : C → VmAction C) (env : CallEnv C) (arg : String) :
    CallLog C × Except FdoError Unit :=
  let r := configMethodOpt mk env arg
  (r.1, r.2.map fun _ => ())

/-- The common body of the argument-less methods that end in
`.map(|_| ())` (`vm_boot`, `vm_delete`, …). -/
def actionMethodUnit (a : VmAction C) (env : CallEnv C) :
    CallLog C × Except FdoError Unit :=
  let r := vm_action env a
  (r.1, r.2.map fun _ => ())

def vm_add_device (env : CallEnv C) (arg : String) := configMethodOpt VmAction.AddDevice env arg

def vm_add_disk (env : CallEnv C) (arg : String) := configMethodOpt VmAction.AddDisk env arg

def vm_add_fs (env : CallEnv C) (arg : String) := configMethodOpt VmAction.AddFs env arg

def vm_add_net (env : CallEnv C) (arg : String) := configMethodOpt VmAction.AddNet env arg

def vm_add_pmem (env : CallEnv C) (arg : String) := configMethodOpt VmAction.AddPmem env arg

def vm_add_user_device (env : CallEnv C) (arg : String) :=
  configMethodOpt VmAction.AddUserDevice env arg

def vm_add_vdpa (env : CallEnv C) (arg : String) := configMethodOpt VmAction.AddVdpa env arg

def vm_add_vsock (env : CallEnv C) (arg : String) := configMethodOpt VmAction.AddVsock env arg

def vm_remove_device (env : CallEnv C) (arg : String) :=
  configMethodUnit VmAction.RemoveDevice env arg

def vm_resize (env : CallEnv C) (arg : String) := configMethodUnit VmAction.Resize env arg

def vm_resize_zone (env : CallEnv C) (arg : String) := configMethodUnit VmAction.ResizeZone env arg

def vm_restore (env : CallEnv C) (arg : String) := configMethodUnit VmAction.Restore env arg

def vm_receive_migration (env : CallEnv C) (arg : String) :=
  configMethodUnit VmAction.ReceiveMigration env arg

def vm_send_migration (env : CallEnv C) (arg : String) :=
  configMethodUnit VmAction.SendMigration env arg

def vm_snapshot (env : CallEnv C) (arg : String) := configMethodUnit VmAction.Snapshot env arg

def vm_boot (env : CallEnv C) := actionMethodUnit VmAction.Boot env

def vm_delete (env : CallEnv C) := actionMethodUnit VmAction.Delete env

def vm_pause (env : CallEnv C) := actionMethodUnit VmAction.Pause env

def vm_power_button (env : CallEnv C) := actionMethodUnit VmAction.PowerButton env

def vm_reboot (env : CallEnv C) := actionMethodUnit VmAction.Reboot env

def vm_resume (env : CallEnv C) := actionMethodUnit VmAction.Resume env

def vm_shutdown (env : CallEnv C) := actionMethodUnit VmAction.Shutdown env

def vm_counters (env : CallEnv C) := vm_action env VmAction.Counters

/-- The Debug rendering of the `&str` error returned by `vm_coredump` on a
build without `target_arch = "x86_64"` and the `guest_debug` feature
(Rust's `format!("{error:?}")` of a `&str` wraps it in quotes). -/
def vmCoredumpUnsupportedMsg : String :=
  "\"VmCoredump only works on x86_64 with the `guest_debug` feature enabled\""

/-- `DBusApi::vm_coredump`. `cap` models the compile-time gate
`cfg(all(target_arch = "x86_64", feature = "guest_debug"))`: with the
capability, decode then `vm_action(VmAction::Coredump(..)).map(|_| ())`;
without it, immediately return `api_error("VmCoredump only works …")`
touching neither the argument nor the controller. -/
def vm_coredump (cap : Bool) (env : CallEnv C) (arg : String) :
    CallLog C × Except FdoError Unit :=
  if cap then configMethodUnit VmAction.Coredump env arg
  else (⟨[], []⟩, .error (api_error vmCoredumpUnsupportedMsg))

/-- `DBusApi::vm_create`: clone the sender, clone the notifier (`?`), *then*
decode the argument (`?`), then offload `super::vm_create(notifier, sender,
config)` and await it. Note the duplication happens before the decode,
unlike the `vm_action`-based config methods. -/
def vm_create (env : CallEnv C) (arg : String) : CallLog C × Except FdoError Unit :=
  match env.notifierClone with
  | .error e => (⟨[.cloneSender, .cloneNotifier], []⟩, .error (FdoError.IOError e))
  | .ok _ =>
    match env.decode arg with
    | .error e =>
        (⟨[.cloneSender, .cloneNotifier, .decodeArg], []⟩, .error (api_error e))
    | .ok cfg =>
      match env.ctrl (Command.vmCreate cfg) with
      | .error e =>
          (⟨[.cloneSender, .cloneNotifier, .decodeArg, .submit, .awaitDone],
            [Command.vmCreate cfg]⟩, .error (api_error e))
      | .ok _ =>
          (⟨[.cloneSender, .cloneNotifier, .decodeArg, .submit, .awaitDone],
            [Command.vmCreate cfg]⟩, .ok ())

/-- `DBusApi::vmm_ping`: clone sender and notifier, offload
`super::vmm_ping`, await, then `serde_json::to_string(&result)` (encoding is
external; `enc` is its stand-in, failure through `api_error`). -/
def vmm_ping (env : CallEnv C) (enc : List Nat → Except String String) :
    CallLog C × Except FdoError String :=
  match env.notifierClone with
  | .error e => (⟨[.cloneSender, .cloneNotifier], []⟩, .error (FdoError.IOError e))
  | .ok _ =>
    match env.ctrl Command.vmmPing with
    | .error e =>
        (⟨[.cloneSender, .cloneNotifier, .submit, .awaitDone], [Command.vmmPing]⟩,
         .error (api_error e))
    | .ok body =>
      match enc (body.getD []) with
      | .error e =>
          (⟨[.cloneSender, .cloneNotifier, .submit, .awaitDone, .encodeReply],
            [Command.vmmPing]⟩, .error (api_error e))
      | .ok s =>
          (⟨[.cloneSender, .cloneNotifier, .submit, .awaitDone, .encodeReply],
            [Command.vmmPing]⟩, .ok s)

/-- `DBusApi::vmm_shutdown`: clone sender and notifier, offload
`super::vmm_shutdown`, await, map the error through `api_error`. -/
def vmm_shutdown (env : CallEnv C) : CallLog C × Except FdoError Unit :=
  match env.notifierClone with
  | .error e => (⟨[.cloneSender, .cloneNotifier], []⟩, .error (FdoError.IOError e))
  | .ok _ =>
    match env.ctrl Command.vmmShutdown with
    | .error e =>
        (⟨[.cloneSender, .cloneNotifier, .submit, .awaitDone], [Command.vmmShutdown]⟩,
         .error (api_error e))
    | .ok _ =>
        (⟨[.cloneSender, .cloneNotifier, .submit, .awaitDone], [Command.vmmShutdown]⟩,
         .ok ())

/-- `DBusApi::vm_info`: same shape as `vmm_ping` but submitting the info
request. -/
def vm_info (env : CallEnv C) (enc : List Nat → Except String String) :
    CallLog C × Except FdoError String :=
  match env.notifierClone with
  | .error e => (⟨[.cloneSender, .cloneNotifier], []⟩, .error (FdoError.IOError e))
  | .ok _ =>
    match env.ctrl Command.vmInfo with
    | .error e =>
        (⟨[.cloneSender, .cloneNotifier, .submit, .awaitDone], [Command.vmInfo]⟩,
         .error (api_error e))
    | .ok body =>
      match enc (body.getD []) with
      | .error e =>
          (⟨[.cloneSender, .cloneNotifier, .submit, .awaitDone, .encodeReply],
            [Command.vmInfo]⟩, .error (api_error e))
      | .ok s =>
          (⟨[.cloneSender, .cloneNotifier, .submit, .awaitDone, .encodeReply],
            [Command.vmInfo]⟩, .ok s)

/-- The method names of the `org.cloudhypervisor.DBusApi1` interface, in the
order of the `#[dbus_interface]` impl block. `vm_coredump` is always in this
list: the `cfg` gate sits inside its body, not on the method. -/
def dbusApi1Methods : List String :=
  ["vmm_ping", "vmm_shutdown", "vm_add_device", "vm_add_disk", "vm_add_fs",
   "vm_add_net", "vm_add_pmem", "vm_add_user_device", "vm_add_vdpa",
   "vm_add_vsock", "vm_boot", "vm_coredump", "vm_counters", "vm_create",
   "vm_delete", "vm_info", "vm_pause", "vm_power_button", "vm_reboot",
   "vm_remove_device", "vm_resize", "vm_resize_zone", "vm_restore",
   "vm_receive_migration", "vm_send_migration", "vm_resume", "vm_shutdown",
   "vm_snapshot"]

/-- `a` occurs strictly before `b` in the trace, whenever both occur (each
call event occurs at most once per trace in this file). -/
def precedes (tr : List CallEvent) (a b : CallEvent) : Prop :=
  a ∈ tr → b ∈ tr → tr.indexOf a < tr.indexOf b

instance (tr : List CallEvent) (a b : CallEvent) : Decidable (precedes tr a b) := by
  unfold precedes; infer_instance

/-- The per-call step ordering common to every method:
duplicate sender, then notifier, then submit, then await, then encode;
and the decode (wherever it sits) always before the submit. -/
def dispatchOrdered (tr : List CallEvent) : Prop :=
  precedes tr .cloneSender .cloneNotifier ∧
  precedes tr .cloneNotifier .submit ∧
  precedes tr .submit .awaitDone ∧
  precedes tr .awaitDone .encodeReply ∧
  precedes tr .decodeArg .submit

instance (tr : List CallEvent) : Decidable (dispatchOrdered tr) := by
  unfold dispatchOrdered; infer_instance

/-- The decode step happens before either handle duplication. -/
def decodeFirst (tr : List CallEvent) : Prop :=
  precedes tr .decodeArg .cloneSender ∧ precedes tr .decodeArg .cloneNotifier

instance (tr : List CallEvent) : Decidable (decodeFirst tr) := by
  unfold decodeFirst; infer_instance

/-! ### The event-loop driver on the dedicated `dbus-thread`

The spawned thread runs `executor::block_on` over
```
let recv_shutdown = recv_shutdown.fuse();
let executor_tick = futures::future::Fuse::terminated();
futures::pin_mut!(recv_shutdown, executor_tick);
executor_tick.set(connection.executor().tick().fuse());
loop {
    futures::select! {
        _ = executor_tick => executor_tick.set(connection.executor().tick().fuse()),
        _ = recv_shutdown => { send_done.send(()).ok(); break; },
    }
}
```
modelled as a labelled transition system.  A tick is one
`connection.executor().tick()` future; running the popped task inside a tick
is a synchronous poll on the single thread, so a tick that has started
executing its task is atomic with respect to the `select!`: the shutdown
branch can only be taken at the selection point, between ticks.  `armed`
counts live tick futures (set but not yet resolved or dropped). -/

/-- The state of the `send_shutdown`/`recv_shutdown` oneshot *begin* channel
as seen by the loop. -/
inductive BeginSig where
  | notSent
  | sent
  | consumed
deriving DecidableEq, Repr

/-- The loop phase: at the `select!` point, mid-tick (the tick's task poll is
executing), or after `break`. -/
inductive Phase where
  | atSelect
  | midTick
  | exited
deriving DecidableEq, Repr

/-- One state of the event-loop driver. `armed` counts currently-set tick
futures; `started`/`completed` count ticks that began / finished executing;
`doneSent` records whether `send_done.send(())` has run. -/
structure LoopState where
  phase : Phase
  beginSig : BeginSig
  armed : Nat
  started : Nat
  completed : Nat
  doneSent : Bool
deriving DecidableEq, Repr

/-- The state on entering the loop: one tick armed
(`executor_tick.set(connection.executor().tick().fuse())` before `loop`),
no shutdown signal, nothing sent on *done*. -/
def initLoop : LoopState :=
  { phase := .atSelect, beginSig := .notSent, armed := 1,
    started := 0, completed := 0, doneSent := false }

/-- Transition labels: the initiator's `send_shutdown.send(())`, a tick
beginning to execute its task, a tick finishing (and the handler immediately
re-arming a fresh tick), and the `select!` resolving the `recv_shutdown`
branch. -/
inductive Label where
  | sendBegin
  | beginTick
  | finishTick
  | observeBegin
deriving DecidableEq, Repr

/-- The small-step transition relation of the driver (plus the external
`sendBegin` action of the shutdown initiator). `observeBegin` is only
enabled at the selection point — never mid-tick — and performs the draining
actions: send *done*, break, drop the still-armed tick future. -/
inductive LoopStep : LoopState → Label → LoopState → Prop where
  | sendBegin (s : LoopState) (h : s.beginSig = .notSent) :
      LoopStep s .sendBegin { s with beginSig := .sent }
  | beginTick (s : LoopState) (h1 : s.phase = .atSelect) (h2 : 1 ≤ s.armed) :
      LoopStep s .beginTick { s with phase := .midTick, started := s.started + 1 }
  | finishTick (s : LoopState) (h : s.phase = .midTick) :
      LoopStep s .finishTick
        { s with phase := .atSelect, completed := s.completed + 1 }
  | observeBegin (s : LoopState) (h1 : s.phase = .atSelect) (h2 : s.beginSig = .sent) :
      LoopStep s .observeBegin
        { s with phase := .exited, beginSig := .consumed,
                 doneSent := true, armed := s.armed - 1 }

/-- States reachable from the loop's initial state. -/
inductive Reachable : LoopState → Prop where
  | init : Reachable initLoop
  | step {s l t} (hr : Reachable s) (hs : LoopStep s l t) : Reachable t

/-! ### The shutdown coordinator `dbus_api_graceful_shutdown`

```
pub fn dbus_api_graceful_shutdown(ch: DBusApiShutdownChannels) {
    let (send_shutdown, mut recv_done) = ch;
    if send_shutdown.send(()).is_err() { return; }
    while let Ok(None) = recv_done.try_recv() {}
}
```
`oneshot::Sender::send` fails exactly when the receiver (the event-loop
thread) is gone.  `try_recv` yields `Ok(Some(()))` once the value arrived,
`Ok(None)` while nothing has arrived yet, and `Err(Canceled)` when the
sender was dropped without sending. -/

/-- Outcome of one `recv_done.try_recv()` poll. -/
inductive TryRecvRes where
  | okSome
  | okNone
  | errCanceled
deriving DecidableEq, Repr

/-- The `while let Ok(None) = recv_done.try_recv() {}` loop, run against the
stream `o` of successive poll outcomes starting at poll index `i`, with
`fuel` remaining polls: returns the outcome that exited the loop together
with the total number of polls made (from index 0), or `none` if the fuel
ran out while still seeing `Ok(None)`. -/
def poll_done_loop (o : Nat → TryRecvRes) : Nat → Nat → Option (TryRecvRes × Nat)
  | _, 0 => none
  | i, fuel + 1 =>
    match o i with
    | .okNone => poll_done_loop o (i + 1) fuel
    | r => some (r, i + 1)

/-- The observable outcome of one `dbus_api_graceful_shutdown` run:
how many `try_recv` polls of the *done* channel were made, and whether the
function returned (as opposed to the fuel running out inside the poll
loop). -/
structure GsOutcome where
  pollCount : Nat
  returned : Bool
deriving DecidableEq, Repr

/-- `dbus_api_graceful_shutdown` as a function of whether
`send_shutdown.send(())` succeeded (`sendOk`, false iff the peer is already
gone), the stream of `try_recv` outcomes, and a poll-fuel bound. If the
send fails the function returns at once, before any poll of *done*. -/
def dbus_api_graceful_shutdown (sendOk : Bool) (o : Nat → TryRecvRes) (fuel : Nat) :
    GsOutcome :=
  if sendOk then
    match poll_done_loop o 0 fuel with
    | some (_, n) => { pollCount := n, returned := true }
    | none => { pollCount := fuel, returned := false }
  else { pollCount := 0, returned := true }

/-! ### Helper lemmas: possible traces of each call shape -/

theorem vm_action_trace_shape (env : CallEnv C) (a : VmAction C) :
    (vm_action env a).1.trace = [.cloneSender, .cloneNotifier] ∨
    (vm_action env a).1.trace = [.cloneSender, .cloneNotifier, .submit, .awaitDone] ∨
    (vm_action env a).1.trace =
      [.cloneSender, .cloneNotifier, .submit, .awaitDone, .encodeReply] := by
  unfold vm_action
  rcases env.notifierClone with e | u
  · left; rfl
  · rcases h : env.ctrl (Command.action a) with e | b
    · right; left; rfl
    · rcases b with _ | bs
      · right; right; rfl
      · right; right; rfl

theorem vm_action_trace_ordered (env : CallEnv C) (a : VmAction C) :
    dispatchOrdered (vm_action env a).1.trace := by
  rcases vm_action_trace_shape env a with h | h | h <;> rw [h] <;> decide

theorem configMethodOpt_trace_shape (mk : C → VmAction C) (env : CallEnv C) (arg : String) :
    (configMethodOpt mk env arg).1.trace = [.decodeArg] ∨
    (configMethodOpt mk env arg).1.trace = [.decodeArg, .cloneSender, .cloneNotifier] ∨
    (configMethodOpt mk env arg).1.trace =
      [.decodeArg, .cloneSender, .cloneNotifier, .submit, .awaitDone] ∨
    (configMethodOpt mk env arg).1.trace =
      [.decodeArg, .cloneSender, .cloneNotifier, .submit, .awaitDone, .encodeReply] := by
  unfold configMethodOpt
  rcases env.decode arg with e | cfg
  · left; rfl
  · rcases vm_action_trace_shape env (mk cfg) with h | h | h <;> simp [h]

theorem configMethodOpt_trace_ordered (mk : C → VmAction C) (env : CallEnv C) (arg : String) :
    dispatchOrdered (configMethodOpt mk env arg).1.trace ∧
    decodeFirst (configMethodOpt mk env arg).1.trace := by
  rcases configMethodOpt_trace_shape mk env arg with h | h | h | h <;> rw [h] <;>
    exact ⟨by decide, by decide⟩

theorem configMethodUnit_log (mk : C → VmAction C) (env : CallEnv C) (arg : String) :
    (configMethodUnit mk env arg).1 = (configMethodOpt mk env arg).1 := rfl

theorem actionMethodUnit_log (a : VmAction C) (env : CallEnv C) :
    (actionMethodUnit a env).1 = (vm_action env a).1 := rfl

theorem vm_create_trace_shape (env : CallEnv C) (arg : String) :
    (vm_create env arg).1.trace = [.cloneSender, .cloneNotifier] ∨
    (vm_create env arg).1.trace = [.cloneSender, .cloneNotifier, .decodeArg] ∨
    (vm_create env arg).1.trace =
      [.cloneSender, .cloneNotifier, .decodeArg, .submit, .awaitDone] := by
  unfold vm_create
  split
  · left; rfl
  · split
    · right; left; rfl
    · split
      · right; right; rfl
      · right; right; rfl

theorem vmm_ping_trace_shape (env : CallEnv C) (enc : List Nat → Except String String) :
    (vmm_ping env enc).1.trace = [.cloneSender, .cloneNotifier] ∨
    (vmm_ping env enc).1.trace = [.cloneSender, .cloneNotifier, .submit, .awaitDone] ∨
    (vmm_ping env enc).1.trace =
      [.cloneSender, .cloneNotifier, .submit, .awaitDone, .encodeReply] := by
  unfold vmm_ping
  split
  · left; rfl
  · split
    · right; left; rfl
    · split
      · right; right; rfl
      · right; right; rfl

theorem vm_info_trace_shape (env : CallEnv C) (enc : List Nat → Except String String) :
    (vm_info env enc).1.trace = [.cloneSender, .cloneNotifier] ∨
    (vm_info env enc).1.trace = [.cloneSender, .cloneNotifier, .submit, .awaitDone] ∨
    (vm_info env enc).1.trace =
      [.cloneSender, .cloneNotifier, .submit, .awaitDone, .encodeReply] := by
  unfold vm_info
  split
  · left; rfl
  · split
    · right; left; rfl
    · split
      · right; right; rfl
      · right; right; rfl

theorem vmm_shutdown_trace_shape (env : CallEnv C) :
    (vmm_shutdown env).1.trace = [.cloneSender, .cloneNotifier] ∨
    (vmm_shutdown env).1.trace = [.cloneSender, .cloneNotifier, .submit, .awaitDone] := by
  unfold vmm_shutdown
  split
  · left; rfl
  · split
    · right; rfl
    · right; rfl

/-! ### Helper lemmas: decode-failure behaviour -/

theorem configMethodOpt_decode_failure (mk : C → VmAction C) (env : CallEnv C)
    (arg : String) (e : String) (hd : env.decode arg = .error e) :
    configMethodOpt mk env arg = (⟨[.decodeArg], []⟩, .error (api_error e)) := by
  unfold configMethodOpt
  rw [hd]

theorem configMethodUnit_decode_failure (mk : C → VmAction C) (env : CallEnv C)
    (arg : String) (e : String) (hd : env.decode arg = .error e) :
    configMethodUnit mk env arg = (⟨[.decodeArg], []⟩, .error (api_error e)) := by
  unfold configMethodUnit
  rw [configMethodOpt_decode_failure mk env arg e hd]
  rfl

/-! ### Helper lemmas: the *done* poll loop and the loop invariant -/

theorem poll_done_loop_first_exit (o : Nat → TryRecvRes) :
    ∀ n i fuel, (∀ m, m < n → o (i + m) = .okNone) → o (i + n) ≠ .okNone →
      n < fuel → poll_done_loop o i fuel = some (o (i + n), i + n + 1) := by
  intro n
  induction n with
  | zero =>
    intro i fuel h hn hf
    rw [Nat.add_zero] at hn ⊢
    cases fuel with
    | zero => omega
    | succ f =>
      unfold poll_done_loop
      rcases h0 : o i with _ | _ | _
      · simp [h0]
      · exact absurd h0 hn
      · simp [h0]
  | succ n ih =>
    intro i fuel h hn hf
    cases fuel with
    | zero => omega
    | succ f =>
      unfold poll_done_loop
      have h0 : o i = .okNone := by
        have := h 0 (Nat.succ_pos n)
        rwa [Nat.add_zero] at this
      rw [h0]
      have harith : ∀ m : Nat, i + 1 + m = i + (m + 1) := fun m => by omega
      have hrec := ih (i + 1) f
        (fun m hm => by rw [harith m]; exact h (m + 1) (Nat.succ_lt_succ hm))
        (by rw [harith n]; exact hn)
        (Nat.lt_of_succ_lt_succ hf)
      rw [hrec, harith n]

/-- The inductive invariant of the event-loop driver: before exit exactly one
tick future is armed and *done* untouched; at the selection point every
started tick has completed; mid-tick exactly one tick is unfinished; after
exit nothing is armed, all started ticks completed, and *done* was sent. -/
def loopInv (s : LoopState) : Prop :=
  (s.phase = .exited →
    s.armed = 0 ∧ s.started = s.completed ∧ s.doneSent = true ∧ s.beginSig = .consumed) ∧
  (s.phase ≠ .exited → s.armed = 1 ∧ s.doneSent = false ∧ s.beginSig ≠ .consumed) ∧
  (s.phase = .midTick → s.started = s.completed + 1) ∧
  (s.phase = .atSelect → s.started = s.completed)

theorem reachable_loopInv (s : LoopState) (hr : Reachable s) : loopInv s := by
  induction hr with
  | init => unfold loopInv initLoop; simp
  | step hr hs ih =>
    unfold loopInv at ih ⊢
    cases hs with
    | sendBegin h => simp_all
    | beginTick h1 h2 => simp_all
    | finishTick h => simp_all
    | observeBegin h1 h2 => simp_all

theorem vmm_ping_trace_ordered (env : CallEnv C) (enc : List Nat → Except String String) :
    dispatchOrdered (vmm_ping env enc).1.trace := by
  rcases vmm_ping_trace_shape env enc with h | h | h <;> rw [h] <;> decide

theorem vm_info_trace_ordered (env : CallEnv C) (enc : List Nat → Except String String) :
    dispatchOrdered (vm_info env enc).1.trace := by
  rcases vm_info_trace_shape env enc with h | h | h <;> rw [h] <;> decide

theorem vmm_shutdown_trace_ordered (env : CallEnv C) :
    dispatchOrdered (vmm_shutdown env).1.trace := by
  rcases vmm_shutdown_trace_shape env with h | h <;> rw [h] <;> decide

theorem vm_create_trace_props (env : CallEnv C) (arg : String) :
    dispatchOrdered (vm_create env arg).1.trace ∧
    precedes (vm_create env arg).1.trace .cloneSender .decodeArg ∧
    precedes (vm_create env arg).1.trace .cloneNotifier .decodeArg := by
  rcases vm_create_trace_shape env arg with h | h | h <;> rw [h] <;>
    exact ⟨by decide, by decide, by decide⟩

/-! ### Claim theorems -/

/-- C5: In `dbus_api_graceful_shutdown`, if sending the *begin* signal fails
because the event-loop thread is already gone, the coordinator returns
immediately with zero polls of the *done* channel, so a second shutdown
invocation (whose peer is necessarily gone) completes without hanging. -/
theorem graceful_shutdown_send_failure_returns_immediately
    (o : Nat → TryRecvRes) (fuel : Nat) :
    dbus_api_graceful_shutdown false o fuel = { pollCount := 0, returned := true } := rfl

/-- C9: The initiator's wait for *done* terminates: provided some poll of the
*done* channel eventually yields a definite value or a peer-dropped report
(outcome other than `Ok(None)`), `dbus_api_graceful_shutdown` returns; and it
exits at the very first such poll, making exactly that many polls. -/
theorem graceful_shutdown_done_wait_terminates (o : Nat → TryRecvRes) (n fuel : Nat)
    (hn : o n ≠ .okNone) (hf : n < fuel) :
    (dbus_api_graceful_shutdown true o fuel).returned = true ∧
    ((∀ m, m < n → o m = .okNone) →
      dbus_api_graceful_shutdown true o fuel = { pollCount := n + 1, returned := true }) := by
  constructor
  · have hex : ∃ k, o k ≠ .okNone := ⟨n, hn⟩
    have hk := Nat.find_spec hex
    have hkle : Nat.find hex ≤ n := Nat.find_min' hex hn
    have hloop := poll_done_loop_first_exit o (Nat.find hex) 0 fuel
      (fun m hm => by
        rw [Nat.zero_add]
        exact not_not.mp (Nat.find_min hex hm))
      (by rw [Nat.zero_add]; exact hk)
      (lt_of_le_of_lt hkle hf)
    simp [dbus_api_graceful_shutdown, hloop]
  · intro hmin
    have hloop := poll_done_loop_first_exit o n 0 fuel
      (fun m hm => by rw [Nat.zero_add]; exact hmin m hm)
      (by rw [Nat.zero_add]; exact hn)
      hf
    simp [dbus_api_graceful_shutdown, hloop]

theorem graceful_shutdown_done_wait_terminates_witness :
    (fun i => if i < 2 then TryRecvRes.okNone else TryRecvRes.okSome) 2 ≠
        TryRecvRes.okNone ∧
    dbus_api_graceful_shutdown true
        (fun i => if i < 2 then TryRecvRes.okNone else TryRecvRes.okSome) 4 =
      { pollCount := 3, returned := true } :=
  ⟨by decide,
   (graceful_shutdown_done_wait_terminates
      (fun i => if i < 2 then TryRecvRes.okNone else TryRecvRes.okSome) 2 4
      (by decide) (by decide)).2
    (fun m hm => by
      have hm01 : m = 0 ∨ m = 1 := by omega
      rcases hm01 with h | h <;> subst h <;> rfl)⟩

/-- C4: On a build without the coredump capability (`cap = false`, the
negative branch of `cfg(all(target_arch = "x86_64", feature =
"guest_debug"))`), `vm_coredump` returns the fixed classified unavailable
failure, performs no step at all — in particular it never contacts the
controller — and is still a method of the `DBusApi1` interface. -/
theorem vm_coredump_without_capability (env : CallEnv C) (arg : String) :
    vm_coredump false env arg =
      (⟨[], []⟩, .error (api_error vmCoredumpUnsupportedMsg)) ∧
    (vm_coredump false env arg).1.submitted = [] ∧
    "vm_coredump" ∈ dbusApi1Methods :=
  ⟨rfl, rfl, by decide⟩

/-- C10: On a build without the coredump capability, `vm_coredump` never
decodes its argument: for every argument string — malformed ones included —
the result is the fixed unavailable failure, the decode step never appears in
the trace, and nothing is submitted. -/
theorem vm_coredump_never_decodes_without_capability (env : CallEnv C) (arg : String) :
    (vm_coredump false env arg).2 = .error (api_error vmCoredumpUnsupportedMsg) ∧
    CallEvent.decodeArg ∉ (vm_coredump false env arg).1.trace ∧
    (vm_coredump false env arg).1.submitted = [] :=
  ⟨rfl, by simp [vm_coredump], rfl⟩

/-- C8: For every successful controller round-trip, `vm_action` translates
the reply into the declared `Optional<String>` shape: a reply with no body
yields `none`, and a reply with a body yields its bytes lossily decoded to
text. -/
theorem vm_action_reply_translation (env : CallEnv C) (a : VmAction C)
    (hn : env.notifierClone = .ok ()) :
    (env.ctrl (Command.action a) = .ok none → (vm_action env a).2 = .ok none) ∧
    (∀ b, env.ctrl (Command.action a) = .ok (some b) →
      (vm_action env a).2 = .ok (some (env.lossy b))) := by
  constructor
  · intro h; unfold vm_action; rw [hn, h]
  · intro b h; unfold vm_action; rw [hn, h]

theorem vm_action_reply_translation_witness :
    (vm_action (⟨fun _ => Except.ok (), fun _ => "body", fun _ => Except.ok none,
        Except.ok ()⟩ : CallEnv Unit) VmAction.Boot).2 = Except.ok none ∧
    (vm_action (⟨fun _ => Except.ok (), fun _ => "body",
        fun _ => Except.ok (some [104, 105]), Except.ok ()⟩ : CallEnv Unit)
        VmAction.Counters).2 = Except.ok (some "body") :=
  ⟨(vm_action_reply_translation _ VmAction.Boot rfl).1 rfl,
   (vm_action_reply_translation _ VmAction.Counters rfl).2 [104, 105] rfl⟩

/-- C2: For every config-bearing RPC method, a decode failure of the string
argument yields the classified decode failure with zero controller
interactions. The `vm_action`-based methods stop at the decode step with
nothing submitted; `vm_coredump` behaves likewise when the capability is
present and submits nothing either way; `vm_create` — whose decode runs after
the handle duplications — submits nothing under a decode failure and, when
the notifier clone succeeded, returns the classified decode failure. -/
theorem config_methods_decode_failure (env : CallEnv C) (arg e : String) (cap : Bool)
    (hd : env.decode arg = .error e) :
    vm_add_device env arg = (⟨[.decodeArg], []⟩, .error (api_error e)) ∧
    vm_add_disk env arg = (⟨[.decodeArg], []⟩, .error (api_error e)) ∧
    vm_add_fs env arg = (⟨[.decodeArg], []⟩, .error (api_error e)) ∧
    vm_add_net env arg = (⟨[.decodeArg], []⟩, .error (api_error e)) ∧
    vm_add_pmem env arg = (⟨[.decodeArg], []⟩, .error (api_error e)) ∧
    vm_add_user_device env arg = (⟨[.decodeArg], []⟩, .error (api_error e)) ∧
    vm_add_vdpa env arg = (⟨[.decodeArg], []⟩, .error (api_error e)) ∧
    vm_add_vsock env arg = (⟨[.decodeArg], []⟩, .error (api_error e)) ∧
    vm_remove_device env arg = (⟨[.decodeArg], []⟩, .error (api_error e)) ∧
    vm_resize env arg = (⟨[.decodeArg], []⟩, .error (api_error e)) ∧
    vm_resize_zone env arg = (⟨[.decodeArg], []⟩, .error (api_error e)) ∧
    vm_restore env arg = (⟨[.decodeArg], []⟩, .error (api_error e)) ∧
    vm_receive_migration env arg = (⟨[.decodeArg], []⟩, .error (api_error e)) ∧
    vm_send_migration env arg = (⟨[.decodeArg], []⟩, .error (api_error e)) ∧
    vm_snapshot env arg = (⟨[.decodeArg], []⟩, .error (api_error e)) ∧
    vm_coredump true env arg = (⟨[.decodeArg], []⟩, .error (api_error e)) ∧
    (vm_coredump cap env arg).1.submitted = [] ∧
    (vm_create env arg).1.submitted = [] ∧
    (env.notifierClone = .ok () →
      vm_create env arg =
        (⟨[.cloneSender, .cloneNotifier, .decodeArg], []⟩, .error (api_error e))) := by
  refine ⟨configMethodOpt_decode_failure _ env arg e hd,
    configMethodOpt_decode_failure _ env arg e hd,
    configMethodOpt_decode_failure _ env arg e hd,
    configMethodOpt_decode_failure _ env arg e hd,
    configMethodOpt_decode_failure _ env arg e hd,
    configMethodOpt_decode_failure _ env arg e hd,
    configMethodOpt_decode_failure _ env arg e hd,
    configMethodOpt_decode_failure _ env arg e hd,
    configMethodUnit_decode_failure _ env arg e hd,
    configMethodUnit_decode_failure _ env arg e hd,
    configMethodUnit_decode_failure _ env arg e hd,
    configMethodUnit_decode_failure _ env arg e hd,
    configMethodUnit_decode_failure _ env arg e hd,
    configMethodUnit_decode_failure _ env arg e hd,
    configMethodUnit_decode_failure _ env arg e hd,
    configMethodUnit_decode_failure _ env arg e hd, ?_, ?_, ?_⟩
  · cases cap
    · rfl
    · rw [show vm_coredump true env arg = configMethodUnit VmAction.Coredump env arg from rfl,
          configMethodUnit_decode_failure _ env arg e hd]
  · unfold vm_create
    split
    · rfl
    · split
      · rfl
      · next cfg h => rw [hd] at h; exact Except.noConfusion h
  · intro hn
    unfold vm_create
    rw [hn, hd]

theorem config_methods_decode_failure_witness :
    vm_add_device (⟨fun _ => Except.error "bad", fun _ => "", fun _ => Except.ok none,
        Except.ok ()⟩ : CallEnv Unit) "x" =
      (⟨[CallEvent.decodeArg], []⟩, Except.error (api_error "bad")) :=
  (config_methods_decode_failure (⟨fun _ => Except.error "bad", fun _ => "",
      fun _ => Except.ok none, Except.ok ()⟩ : CallEnv Unit) "x" "bad" false rfl).1

/-- C3 counterexample: in `vm_create` the argument is *not* decoded before
the handle duplications: on a well-formed input its trace duplicates the
sender and the notifier first and only then decodes, so the claimed
decode-before-duplicate order fails for this method. -/
theorem vm_create_clones_before_decode_counterexample :
    (vm_create (⟨fun _ => Except.ok (), fun _ => "", fun _ => Except.ok none,
        Except.ok ()⟩ : CallEnv Unit) "{}").1.trace =
      [.cloneSender, .cloneNotifier, .decodeArg, .submit, .awaitDone] ∧
    ¬ decodeFirst
        [.cloneSender, .cloneNotifier, .decodeArg, .submit, .awaitDone] :=
  ⟨rfl, by decide⟩

/-- C3 (amended): within one call the steps always satisfy duplicate sender →
duplicate notifier → submit → await → encode, with the decode before the
submit; the `vm_action`-based config-bearing methods (and the capability-gated
`vm_coredump`) decode before duplicating either handle, but `vm_create`
instead duplicates the sender and the notifier before decoding its
argument. -/
theorem rpc_call_step_order (env : CallEnv C) (arg : String)
    (enc : List Nat → Except String String) (cap : Bool) :
    (dispatchOrdered (vm_add_device env arg).1.trace ∧
      decodeFirst (vm_add_device env arg).1.trace) ∧
    (dispatchOrdered (vm_add_disk env arg).1.trace ∧
      decodeFirst (vm_add_disk env arg).1.trace) ∧
    (dispatchOrdered (vm_add_fs env arg).1.trace ∧
      decodeFirst (vm_add_fs env arg).1.trace) ∧
    (dispatchOrdered (vm_add_net env arg).1.trace ∧
      decodeFirst (vm_add_net env arg).1.trace) ∧
    (dispatchOrdered (vm_add_pmem env arg).1.trace ∧
      decodeFirst (vm_add_pmem env arg).1.trace) ∧
    (dispatchOrdered (vm_add_user_device env arg).1.trace ∧
      decodeFirst (vm_add_user_device env arg).1.trace) ∧
    (dispatchOrdered (vm_add_vdpa env arg).1.trace ∧
      decodeFirst (vm_add_vdpa env arg).1.trace) ∧
    (dispatchOrdered (vm_add_vsock env arg).1.trace ∧
      decodeFirst (vm_add_vsock env arg).1.trace) ∧
    (dispatchOrdered (vm_remove_device env arg).1.trace ∧
      decodeFirst (vm_remove_device env arg).1.trace) ∧
    (dispatchOrdered (vm_resize env arg).1.trace ∧
      decodeFirst (vm_resize env arg).1.trace) ∧
    (dispatchOrdered (vm_resize_zone env arg).1.trace ∧
      decodeFirst (vm_resize_zone env arg).1.trace) ∧
    (dispatchOrdered (vm_restore env arg).1.trace ∧
      decodeFirst (vm_restore env arg).1.trace) ∧
    (dispatchOrdered (vm_receive_migration env arg).1.trace ∧
      decodeFirst (vm_receive_migration env arg).1.trace) ∧
    (dispatchOrdered (vm_send_migration env arg).1.trace ∧
      decodeFirst (vm_send_migration env arg).1.trace) ∧
    (dispatchOrdered (vm_snapshot env arg).1.trace ∧
      decodeFirst (vm_snapshot env arg).1.trace) ∧
    (dispatchOrdered (vm_coredump cap env arg).1.trace ∧
      decodeFirst (vm_coredump cap env arg).1.trace) ∧
    (dispatchOrdered (vm_create env arg).1.trace ∧
      precedes (vm_create env arg).1.trace .cloneSender .decodeArg ∧
      precedes (vm_create env arg).1.trace .cloneNotifier .decodeArg) ∧
    dispatchOrdered (vm_boot env).1.trace ∧
    dispatchOrdered (vm_delete env).1.trace ∧
    dispatchOrdered (vm_pause env).1.trace ∧
    dispatchOrdered (vm_power_button env).1.trace ∧
    dispatchOrdered (vm_reboot env).1.trace ∧
    dispatchOrdered (vm_resume env).1.trace ∧
    dispatchOrdered (vm_shutdown env).1.trace ∧
    dispatchOrdered (vm_counters env).1.trace ∧
    dispatchOrdered (vmm_ping env enc).1.trace ∧
    dispatchOrdered (vm_info env enc).1.trace ∧
    dispatchOrdered (vmm_shutdown env).1.trace := by
  refine ⟨configMethodOpt_trace_ordered _ env arg,
    configMethodOpt_trace_ordered _ env arg,
    configMethodOpt_trace_ordered _ env arg,
    configMethodOpt_trace_ordered _ env arg,
    configMethodOpt_trace_ordered _ env arg,
    configMethodOpt_trace_ordered _ env arg,
    configMethodOpt_trace_ordered _ env arg,
    configMethodOpt_trace_ordered _ env arg,
    configMethodOpt_trace_ordered _ env arg,
    configMethodOpt_trace_ordered _ env arg,
    configMethodOpt_trace_ordered _ env arg,
    configMethodOpt_trace_ordered _ env arg,
    configMethodOpt_trace_ordered _ env arg,
    configMethodOpt_trace_ordered _ env arg,
    configMethodOpt_trace_ordered _ env arg, ?_,
    vm_create_trace_props env arg,
    vm_action_trace_ordered env VmAction.Boot,
    vm_action_trace_ordered env VmAction.Delete,
    vm_action_trace_ordered env VmAction.Pause,
    vm_action_trace_ordered env VmAction.PowerButton,
    vm_action_trace_ordered env VmAction.Reboot,
    vm_action_trace_ordered env VmAction.Resume,
    vm_action_trace_ordered env VmAction.Shutdown,
    vm_action_trace_ordered env VmAction.Counters,
    vmm_ping_trace_ordered env enc,
    vm_info_trace_ordered env enc,
    vmm_shutdown_trace_ordered env⟩
  cases cap
  · constructor
    · rw [show (vm_coredump false env arg).1.trace = ([] : List CallEvent) from rfl]
      decide
    · rw [show (vm_coredump false env arg).1.trace = ([] : List CallEvent) from rfl]
      decide
  · exact configMethodOpt_trace_ordered VmAction.Coredump env arg

/-- C1: Every tick started before the *begin* signal is observed completes
before the loop exits (in every reachable exited state the started and
completed tick counts agree), and the only transition that exits the loop is
the observation of *begin* at the selection point — between ticks, never
preempting one. -/
theorem shutdown_not_preempting_ticks (s : LoopState) (hr : Reachable s) :
    (s.phase = .exited → s.started = s.completed) ∧
    (∀ l t, LoopStep s l t → t.phase = .exited →
      s.phase = .atSelect ∧ l = .observeBegin) := by
  have hinv := reachable_loopInv s hr
  constructor
  · intro h
    exact ((hinv.1 h).2.1)
  · intro l t hs ht
    cases hs with
    | sendBegin h =>
      have hph : s.phase = .exited := ht
      have hc := (hinv.1 hph).2.2.2
      rw [hc] at h
      simp at h
    | beginTick h1 h2 => simp at ht
    | finishTick h => simp at ht
    | observeBegin h1 h2 => exact ⟨h1, rfl⟩

theorem shutdown_not_preempting_ticks_witness :
    (⟨Phase.exited, BeginSig.consumed, 0, 0, 0, true⟩ : LoopState).started =
      (⟨Phase.exited, BeginSig.consumed, 0, 0, 0, true⟩ : LoopState).completed :=
  (shutdown_not_preempting_ticks ⟨Phase.exited, BeginSig.consumed, 0, 0, 0, true⟩
    (Reachable.step (Reachable.step Reachable.init (LoopStep.sendBegin initLoop rfl))
      (LoopStep.observeBegin ⟨Phase.atSelect, BeginSig.sent, 1, 0, 0, false⟩
        rfl rfl))).1 rfl

/-- C6: Observing the *begin* signal exits the loop and sends *done* exactly
once: the resulting state is exited with *done* sent, *done* had not been
sent before, and no further transition — in particular no new tick — is
possible from the exited state, so the thread can be joined. -/
theorem observe_begin_drains (s t : LoopState) (hr : Reachable s)
    (hs : LoopStep s .observeBegin t) :
    t.phase = .exited ∧ t.doneSent = true ∧ s.doneSent = false ∧
    ∀ l u, ¬ LoopStep t l u := by
  have hinv := reachable_loopInv s hr
  cases hs with
  | observeBegin h1 h2 =>
    refine ⟨rfl, rfl, (hinv.2.1 (by simp [h1])).2.1, ?_⟩
    intro l u hsu
    cases hsu with
    | sendBegin h => simp at h
    | beginTick hb1 hb2 => simp at hb1
    | finishTick hf => simp at hf
    | observeBegin ho1 ho2 => simp at ho1

theorem observe_begin_drains_witness :
    (⟨Phase.exited, BeginSig.consumed, 0, 0, 0, true⟩ : LoopState).doneSent = true :=
  (observe_begin_drains ⟨Phase.atSelect, BeginSig.sent, 1, 0, 0, false⟩
    ⟨Phase.exited, BeginSig.consumed, 0, 0, 0, true⟩
    (Reachable.step Reachable.init (LoopStep.sendBegin initLoop rfl))
    (LoopStep.observeBegin ⟨Phase.atSelect, BeginSig.sent, 1, 0, 0, false⟩
      rfl rfl)).2.1

/-- C7: The driver keeps exactly one outstanding tick: every reachable state
has at most one armed tick future, exactly one while the loop has not exited,
and completing a tick immediately re-arms exactly one new tick while
advancing the completed count by one. -/
theorem exactly_one_outstanding_tick (s : LoopState) (hr : Reachable s) :
    s.armed ≤ 1 ∧ (s.phase ≠ .exited → s.armed = 1) ∧
    (∀ t, LoopStep s .finishTick t → t.armed = 1 ∧ t.completed = s.completed + 1) := by
  have hinv := reachable_loopInv s hr
  refine ⟨?_, fun h => (hinv.2.1 h).1, ?_⟩
  · by_cases h : s.phase = .exited
    · have := (hinv.1 h).1; omega
    · have := (hinv.2.1 h).1; omega
  · intro t ht
    cases ht with
    | finishTick h =>
      refine ⟨?_, rfl⟩
      have hne : s.phase ≠ .exited := by simp [h]
      exact (hinv.2.1 hne).1

theorem exactly_one_outstanding_tick_witness : initLoop.armed ≤ 1 :=
  (exactly_one_outstanding_tick initLoop Reachable.init).1

end DBusApiModel
